import Mathlib

/-!
Verification of the axis-aligned `Rectangle` primitive from
`core/src/primitives/rectangle/mod.rs` of the embedded-graphics repository.

Machine integers are embedded as unbounded `Int`/`Nat` together with the
explicit clamping (`sat*`) or wrapping (`wrap32`, `% 4294967296`) operations
the source performs:
* `i32` values live in `[i32Min, i32Max]`; the `az::SaturatingAs` conversion
  `u32 -> i32` is `satI32`, `i32::saturating_add` is `satAdd32`, and the
  release-mode behaviour of a plain overflowing `i32` operation is `wrap32`.
* `u32` values live in `[0, u32Max]`; `u32::saturating_add/sub` clamp there,
  and the plain `u32` multiplication in `Rectangle::offset` wraps modulo
  `2^32`.

`Point` and `Size` (the `geometry` module) are external to the provided
source file; their operations are modelled from the specification, which
states that all size-to-signed conversions and coordinate additions and
subtractions in this component saturate at the representable extreme.
-/

namespace EmbeddedGraphics

/-- Smallest `i32` value, `-2^31`. -/
def i32Min : Int := -2147483648

/-- Largest `i32` value, `2^31 - 1`. -/
def i32Max : Int := 2147483647

/-- Largest `u32` value, `2^32 - 1`. -/
def u32Max : Nat := 4294967295

/-- Saturating conversion `u32 -> i32` (`az::SaturatingAs`): values above
`i32::MAX` clamp to `i32::MAX`. -/
def satI32 (n : Nat) : Int :=
  if (n : Int) ≤ i32Max then (n : Int) else i32Max

/-- `i32::saturating_add`: the exact sum clamped to `[i32Min, i32Max]`. -/
def satAdd32 (a b : Int) : Int :=
  if a + b < i32Min then i32Min else if a + b ≤ i32Max then a + b else i32Max

/-- `i32::saturating_sub`: the exact difference clamped to `[i32Min, i32Max]`. -/
def satSub32 (a b : Int) : Int :=
  if a - b < i32Min then i32Min else if a - b ≤ i32Max then a - b else i32Max

/-- Result of a plain `i32` operation under two's-complement wrap-around
(release-mode overflow semantics). -/
def wrap32 (z : Int) : Int :=
  (z + 2147483648) % 4294967296 - 2147483648

/-- Modelled from the spec: `Point`, a 2D signed (`i32`) integer coordinate
(external leaf dependency of the rectangle module). -/
structure Point where
  x : Int
  y : Int
deriving DecidableEq

/-- Modelled from the spec: `Size`, a 2D unsigned (`u32`) integer extent
(external leaf dependency of the rectangle module). -/
structure Size where
  width : Nat
  height : Nat
deriving DecidableEq

/-- Modelled from the spec: `Point::zero()`. -/
def Point.zero : Point := ⟨0, 0⟩

/-- Modelled from the spec: `Size::zero()`. -/
def Size.zero : Size := ⟨0, 0⟩

/-- Modelled from the spec: `Size::new_equal(n)`, a square size. -/
def Size.new_equal (n : Nat) : Size := ⟨n, n⟩

/-- Modelled from the spec: `u32`-componentwise `Size::saturating_sub`
(saturates at zero, which is exactly truncated `Nat` subtraction). -/
def Size.saturating_sub (a b : Size) : Size :=
  ⟨a.width - b.width, a.height - b.height⟩

/-- Modelled from the spec: `u32`-componentwise `Size::saturating_add`
(saturates at `u32::MAX`). -/
def Size.saturating_add (a b : Size) : Size :=
  ⟨min (a.width + b.width) u32Max, min (a.height + b.height) u32Max⟩

/-- Modelled from the spec: `Size::div_u32`, componentwise division. -/
def Size.div_u32 (s : Size) (d : Nat) : Size :=
  ⟨s.width / d, s.height / d⟩

/-- Modelled from the spec: `Size::from_bounding_box(c1, c2)`, the inclusive
span `|c2 - c1| + 1` along each axis, saturating at the `u32` bound. -/
def Size.from_bounding_box (corner_1 corner_2 : Point) : Size :=
  ⟨min ((corner_1.x - corner_2.x).natAbs + 1) u32Max,
   min ((corner_1.y - corner_2.y).natAbs + 1) u32Max⟩

/-- Modelled from the spec: `Add<Size> for Point` (`top_left + size`), a
saturating conversion of each `u32` component followed by a saturating
`i32` addition. -/
def Point.add_size (p : Point) (s : Size) : Point :=
  ⟨satAdd32 p.x (satI32 s.width), satAdd32 p.y (satI32 s.height)⟩

/-- Modelled from the spec: `Point::sub_size` (`center - centerOffset(size)`),
a saturating conversion of each `u32` component followed by a saturating
`i32` subtraction. -/
def Point.sub_size (p : Point) (s : Size) : Point :=
  ⟨satSub32 p.x (satI32 s.width), satSub32 p.y (satI32 s.height)⟩

/-- Modelled from the spec: `Sub<Point> for Point`, componentwise saturating
`i32` subtraction. -/
def Point.sub_point (p q : Point) : Point :=
  ⟨satSub32 p.x q.x, satSub32 p.y q.y⟩

/-- Modelled from the spec: `Point::component_min`, componentwise minimum. -/
def Point.component_min (p q : Point) : Point :=
  ⟨min p.x q.x, min p.y q.y⟩

/-- Modelled from the spec: `Point::component_max`, componentwise maximum. -/
def Point.component_max (p q : Point) : Point :=
  ⟨max p.x q.x, max p.y q.y⟩

/-- Modelled from the spec: the horizontal anchor enum `AnchorX`. -/
inductive AnchorX where
  | Left
  | Center
  | Right
deriving DecidableEq

/-- Modelled from the spec: the vertical anchor enum `AnchorY`. -/
inductive AnchorY where
  | Top
  | Center
  | Bottom
deriving DecidableEq

/-- Modelled from the spec: the nine-valued anchor enum `AnchorPoint`. -/
inductive AnchorPoint where
  | TopLeft
  | TopCenter
  | TopRight
  | CenterLeft
  | Center
  | CenterRight
  | BottomLeft
  | BottomCenter
  | BottomRight
deriving DecidableEq

/-- Modelled from the spec: `AnchorPoint::x()`, the horizontal component of
the lossless decomposition of an `AnchorPoint` into an `(AnchorX, AnchorY)`
pair. -/
def AnchorPoint.x : AnchorPoint → AnchorX
  | .TopLeft | .CenterLeft | .BottomLeft => .Left
  | .TopCenter | .Center | .BottomCenter => .Center
  | .TopRight | .CenterRight | .BottomRight => .Right

/-- Modelled from the spec: `AnchorPoint::y()`, the vertical component of
the lossless decomposition of an `AnchorPoint` into an `(AnchorX, AnchorY)`
pair. -/
def AnchorPoint.y : AnchorPoint → AnchorY
  | .TopLeft | .TopCenter | .TopRight => .Top
  | .CenterLeft | .Center | .CenterRight => .Center
  | .BottomLeft | .BottomCenter | .BottomRight => .Bottom

/-- `core::ops::RangeInclusive<i32>`, as built by `intersection` for the
`overlaps` helper. `lo`/`hi` stand for Rust's `start()`/`end()`. -/
structure RangeInclusive where
  lo : Int
  hi : Int
deriving DecidableEq

/-- `RangeInclusive::contains`: `start <= x && x <= end`. -/
def RangeInclusive.contains (r : RangeInclusive) (x : Int) : Bool :=
  decide (r.lo ≤ x) && decide (x ≤ r.hi)

/-- `core::ops::Range<i32>` (half-open), as returned by `rows`/`columns`.
`stop` stands for Rust's `end`. -/
structure RangeExclusive where
  start : Int
  stop : Int
deriving DecidableEq

/-- `Range::is_empty`: `!(start < end)`. -/
def RangeExclusive.is_empty (r : RangeExclusive) : Bool :=
  !(decide (r.start < r.stop))

/-- `fn overlaps(first, second)` (`rectangle/mod.rs`): `second` contains
`first`'s start, or `second` contains `first`'s end, or `first` strictly
contains `second`. -/
def overlaps (first second : RangeInclusive) : Bool :=
  second.contains first.lo || second.contains first.hi ||
    (decide (first.lo < second.lo) && decide (first.hi > second.hi))

/-- `struct Rectangle`: a top-left `Point` and a `Size`. -/
structure Rectangle where
  top_left : Point
  size : Size
deriving DecidableEq

/-- `fn center_offset(size)`: `size.saturating_sub(Size::new_equal(1)).div_u32(2)`. -/
def center_offset (size : Size) : Size :=
  (size.saturating_sub (Size.new_equal 1)).div_u32 2

/-- `Rectangle::new(top_left, size)`. -/
def Rectangle.new (top_left : Point) (size : Size) : Rectangle :=
  ⟨top_left, size⟩

/-- `Rectangle::new_at_origin(size)`. -/
def Rectangle.new_at_origin (size : Size) : Rectangle :=
  ⟨Point.zero, size⟩

/-- `Rectangle::with_corners(corner_1, corner_2)`: componentwise-minimum
top-left corner and the inclusive bounding-box size. -/
def Rectangle.with_corners (corner_1 corner_2 : Point) : Rectangle :=
  ⟨⟨min corner_1.x corner_2.x, min corner_1.y corner_2.y⟩,
   Size.from_bounding_box corner_1 corner_2⟩

/-- `Rectangle::with_center(center, size)`: `top_left = center - center_offset(size)`. -/
def Rectangle.with_center (center : Point) (size : Size) : Rectangle :=
  ⟨center.sub_size (center_offset size), size⟩

/-- `Rectangle::zero()`. -/
def Rectangle.zero : Rectangle :=
  ⟨Point.zero, Size.zero⟩

/-- `Rectangle::center()`: `top_left + center_offset(size)`. -/
def Rectangle.center (r : Rectangle) : Point :=
  r.top_left.add_size (center_offset r.size)

/-- `Rectangle::bottom_right()`: `Some(top_left + size - (1, 1))` when both
dimensions are nonzero, `None` otherwise. -/
def Rectangle.bottom_right (r : Rectangle) : Option Point :=
  if 0 < r.size.width ∧ 0 < r.size.height then
    some ((r.top_left.add_size r.size).sub_point ⟨1, 1⟩)
  else
    none

/-- `Rectangle::contains(point)`: inside `[top_left, bottom_right]` on both
axes; always `false` for a zero-sized rectangle (no bottom-right corner). -/
def Rectangle.contains (r : Rectangle) (p : Point) : Bool :=
  if p.x ≥ r.top_left.x ∧ p.y ≥ r.top_left.y then
    match r.bottom_right with
    | some br => decide (p.x ≤ br.x) && decide (p.y ≤ br.y)
    | none => false
  else
    false

/-- `Rectangle::is_zero_sized()`: `height == 0 || width == 0`. -/
def Rectangle.is_zero_sized (r : Rectangle) : Bool :=
  decide (r.size.height = 0) || decide (r.size.width = 0)

/-- `Rectangle::intersection(other)`, matching on
`(other.bottom_right(), self.bottom_right())` exactly as the source does. -/
def Rectangle.intersection (self other : Rectangle) : Rectangle :=
  match other.bottom_right, self.bottom_right with
  | some obr, some sbr =>
      if overlaps ⟨self.top_left.x, sbr.x⟩ ⟨other.top_left.x, obr.x⟩ &&
         overlaps ⟨self.top_left.y, sbr.y⟩ ⟨other.top_left.y, obr.y⟩ then
        Rectangle.with_corners (self.top_left.component_max other.top_left)
          (sbr.component_min obr)
      else
        Rectangle.zero
  | some _, none =>
      if other.contains self.top_left then self else Rectangle.zero
  | none, some _ =>
      if self.contains other.top_left then other else Rectangle.zero
  | none, none => Rectangle.zero

/-- `Rectangle::anchor_x(anchor_x)`: `top_left.x` plus `0`, `delta / 2` or
`delta`, where `delta = width.saturating_as::<i32>().max(1) - 1` and the
final addition is a plain (wrapping) `i32` addition. -/
def Rectangle.anchor_x (r : Rectangle) (anchor_x : AnchorX) : Int :=
  let delta := max (satI32 r.size.width) 1 - 1
  wrap32 (r.top_left.x +
    match anchor_x with
    | .Left => 0
    | .Center => Int.tdiv delta 2
    | .Right => delta)

/-- `Rectangle::anchor_y(anchor_y)`: symmetric to `anchor_x` over `y`/height. -/
def Rectangle.anchor_y (r : Rectangle) (anchor_y : AnchorY) : Int :=
  let delta := max (satI32 r.size.height) 1 - 1
  wrap32 (r.top_left.y +
    match anchor_y with
    | .Top => 0
    | .Center => Int.tdiv delta 2
    | .Bottom => delta)

/-- `Rectangle::anchor_point(anchor_point)`: composes `anchor_x` and
`anchor_y` from the anchor's two components. -/
def Rectangle.anchor_point (r : Rectangle) (anchor_point : AnchorPoint) : Point :=
  ⟨r.anchor_x anchor_point.x, r.anchor_y anchor_point.y⟩

/-- `Rectangle::envelope(other)`: `with_corners` of the componentwise-minimum
top-left and the componentwise-maximum `AnchorPoint::BottomRight`. -/
def Rectangle.envelope (self other : Rectangle) : Rectangle :=
  Rectangle.with_corners
    (self.top_left.component_min other.top_left)
    ((self.anchor_point .BottomRight).component_max
      (other.anchor_point .BottomRight))

/-- `Rectangle::resize_width_mut(width, anchor_x)` as a pure function:
`delta = old_width.saturating_as::<i32>().max(1) - width.saturating_as::<i32>().max(1)`
(this `i32` subtraction cannot overflow: both operands are in `[1, i32Max]`),
then `top_left.x` is shifted by `0`, `delta / 2` (truncating division) or
`delta` with a plain (wrapping) `i32` addition, and the width is overwritten. -/
def Rectangle.resize_width_mut (r : Rectangle) (width : Nat) (anchor_x : AnchorX) :
    Rectangle :=
  let delta := max (satI32 r.size.width) 1 - max (satI32 width) 1
  ⟨⟨wrap32 (r.top_left.x +
      match anchor_x with
      | .Left => 0
      | .Center => Int.tdiv delta 2
      | .Right => delta),
    r.top_left.y⟩,
   ⟨width, r.size.height⟩⟩

/-- `Rectangle::resize_height_mut(height, anchor_y)`: symmetric to
`resize_width_mut` over `y`/height. -/
def Rectangle.resize_height_mut (r : Rectangle) (height : Nat) (anchor_y : AnchorY) :
    Rectangle :=
  let delta := max (satI32 r.size.height) 1 - max (satI32 height) 1
  ⟨⟨r.top_left.x,
    wrap32 (r.top_left.y +
      match anchor_y with
      | .Top => 0
      | .Center => Int.tdiv delta 2
      | .Bottom => delta)⟩,
   ⟨r.size.width, height⟩⟩

/-- `Rectangle::resized(size, anchor_point)`: resize width then height using
the anchor's components. -/
def Rectangle.resized (r : Rectangle) (size : Size) (anchor_point : AnchorPoint) :
    Rectangle :=
  (r.resize_width_mut size.width anchor_point.x).resize_height_mut
    size.height anchor_point.y

/-- `Rectangle::resized_width(width, anchor_x)`. -/
def Rectangle.resized_width (r : Rectangle) (width : Nat) (anchor_x : AnchorX) :
    Rectangle :=
  r.resize_width_mut width anchor_x

/-- `Rectangle::resized_height(height, anchor_y)`. -/
def Rectangle.resized_height (r : Rectangle) (height : Nat) (anchor_y : AnchorY) :
    Rectangle :=
  r.resize_height_mut height anchor_y

/-- `Rectangle::offset(offset)`: grows (or, for negative values, shrinks) the
size by `2 * offset` per axis and recenters via `with_center(center(), size)`.
The amount `offset as u32 * 2` (resp. `(-offset) as u32 * 2`) is a plain
`u32` multiplication after a wrapping cast, so it wraps modulo `2^32`; only
the outer `Size::saturating_add`/`saturating_sub` saturate. -/
def Rectangle.offset (r : Rectangle) (offset : Int) : Rectangle :=
  let size :=
    if 0 ≤ offset then
      r.size.saturating_add (Size.new_equal ((offset.toNat * 2) % 4294967296))
    else
      r.size.saturating_sub
        (Size.new_equal ((((-offset) % 4294967296).toNat * 2) % 4294967296))
  Rectangle.with_center r.center size

/-- `Rectangle::rows()`: `top_left.y .. top_left.y.saturating_add(height.saturating_as())`. -/
def Rectangle.rows (r : Rectangle) : RangeExclusive :=
  ⟨r.top_left.y, satAdd32 r.top_left.y (satI32 r.size.height)⟩

/-- `Rectangle::columns()`: `top_left.x .. top_left.x.saturating_add(width.saturating_as())`. -/
def Rectangle.columns (r : Rectangle) : RangeExclusive :=
  ⟨r.top_left.x, satAdd32 r.top_left.x (satI32 r.size.width)⟩

/-- Modelled from the spec: `Rectangle::offset` as the specification demands
it — "equivalent to growing width and height by `2 * amount`, saturating at
zero on shrink", with every conversion and multiplication clamping at the
representable extreme instead of wrapping. -/
def Rectangle.offsetSpec (r : Rectangle) (offset : Int) : Rectangle :=
  let size :=
    if 0 ≤ offset then
      r.size.saturating_add (Size.new_equal (min (offset.toNat * 2) u32Max))
    else
      r.size.saturating_sub (Size.new_equal (min ((-offset).toNat * 2) u32Max))
  Rectangle.with_center r.center size

/-- A `Point` whose coordinates are representable as `i32`. -/
abbrev Point.validI32 (p : Point) : Prop :=
  i32Min ≤ p.x ∧ p.x ≤ i32Max ∧ i32Min ≤ p.y ∧ p.y ≤ i32Max

/-- A `Size` whose components are representable as `u32`. -/
abbrev Size.validU32 (s : Size) : Prop :=
  s.width ≤ u32Max ∧ s.height ≤ u32Max

/-- A `Rectangle` whose fields are representable as `i32`/`u32`. -/
abbrev Rectangle.valid (r : Rectangle) : Prop :=
  r.top_left.validI32 ∧ r.size.validU32

/-- The derived coordinates of the rectangle stay inside the `i32` range, so
none of the saturating/wrapping operations on them actually clamp or wrap:
both size components are at most `i32Max` and `top_left + size` is at most
`i32Max` on each axis. -/
abbrev Rectangle.noSat (r : Rectangle) : Prop :=
  (r.size.width : Int) ≤ i32Max ∧ (r.size.height : Int) ≤ i32Max ∧
  r.top_left.x + r.size.width ≤ i32Max ∧ r.top_left.y + r.size.height ≤ i32Max

theorem satI32_eq (n : Nat) (h : (n : Int) ≤ 2147483647) : satI32 n = n := by
  unfold satI32 i32Max
  rw [if_pos h]

theorem wrap32_eq (z : Int) (h1 : -2147483648 ≤ z) (h2 : z ≤ 2147483647) :
    wrap32 z = z := by
  unfold wrap32
  rw [Int.emod_eq_of_lt (by omega) (by omega)]
  omega

theorem bottom_right_none (r : Rectangle) (h : r.size.width = 0 ∨ r.size.height = 0) :
    r.bottom_right = none := by
  unfold Rectangle.bottom_right
  rw [if_neg (by omega)]

theorem bottom_right_some (r : Rectangle) (hv : r.valid) (hn : r.noSat)
    (hw : 0 < r.size.width) (hh : 0 < r.size.height) :
    r.bottom_right = some ⟨r.top_left.x + r.size.width - 1,
                           r.top_left.y + r.size.height - 1⟩ := by
  obtain ⟨⟨tlx, tly⟩, w, h⟩ := r
  obtain ⟨⟨hx1, hx2, hy1, hy2⟩, hsw, hsh⟩ := hv
  obtain ⟨h1, h2, h3, h4⟩ := hn
  simp only [i32Min, i32Max, u32Max] at *
  unfold Rectangle.bottom_right
  rw [if_pos ⟨hw, hh⟩]
  simp only [Point.add_size, Point.sub_point, satAdd32, satSub32, satI32, i32Min,
    i32Max, Option.some.injEq, Point.mk.injEq]
  refine ⟨?_, ?_⟩ <;> (split_ifs <;> omega)

theorem contains_of_br_none (r : Rectangle) (p : Point) (h : r.bottom_right = none) :
    r.contains p = false := by
  unfold Rectangle.contains
  rw [h]
  split_ifs <;> rfl

theorem contains_of_br_some (r : Rectangle) (p : Point) (br : Point)
    (h : r.bottom_right = some br) :
    r.contains p = (decide (p.x ≥ r.top_left.x ∧ p.y ≥ r.top_left.y) &&
      (decide (p.x ≤ br.x) && decide (p.y ≤ br.y))) := by
  unfold Rectangle.contains
  rw [h]
  split_ifs with hc <;> simp [hc]

theorem contains_iff (r : Rectangle) (p : Point) (hv : r.valid) (hn : r.noSat) :
    r.contains p = true ↔
      0 < r.size.width ∧ 0 < r.size.height ∧
      r.top_left.x ≤ p.x ∧ p.x ≤ r.top_left.x + r.size.width - 1 ∧
      r.top_left.y ≤ p.y ∧ p.y ≤ r.top_left.y + r.size.height - 1 := by
  by_cases hz : r.size.width = 0 ∨ r.size.height = 0
  · rw [contains_of_br_none r p (bottom_right_none r hz)]
    simp only [Bool.false_eq_true, false_iff]
    omega
  · push_neg at hz
    rw [contains_of_br_some r p _ (bottom_right_some r hv hn (by omega) (by omega))]
    simp only [Bool.and_eq_true, decide_eq_true_eq, ge_iff_le]
    omega

theorem overlaps_char (f s : RangeInclusive) (hf : f.lo ≤ f.hi) (hs : s.lo ≤ s.hi) :
    overlaps f s = true ↔ max f.lo s.lo ≤ min f.hi s.hi := by
  unfold overlaps RangeInclusive.contains
  simp only [Bool.or_eq_true, Bool.and_eq_true, decide_eq_true_eq, gt_iff_lt]
  omega

theorem intersection_some_some (a b : Rectangle) (pa pb : Point)
    (ha : a.bottom_right = some pa) (hb : b.bottom_right = some pb) :
    a.intersection b =
      if overlaps ⟨a.top_left.x, pa.x⟩ ⟨b.top_left.x, pb.x⟩ &&
         overlaps ⟨a.top_left.y, pa.y⟩ ⟨b.top_left.y, pb.y⟩ then
        Rectangle.with_corners (a.top_left.component_max b.top_left)
          (pa.component_min pb)
      else Rectangle.zero := by
  unfold Rectangle.intersection
  rw [ha, hb]

theorem intersection_none_none (a b : Rectangle)
    (ha : a.bottom_right = none) (hb : b.bottom_right = none) :
    a.intersection b = Rectangle.zero := by
  unfold Rectangle.intersection
  rw [ha, hb]

theorem intersection_zero_nonzero (a b : Rectangle) (pb : Point)
    (ha : a.bottom_right = none) (hb : b.bottom_right = some pb) :
    a.intersection b = if b.contains a.top_left then a else Rectangle.zero := by
  unfold Rectangle.intersection
  rw [ha, hb]

theorem intersection_nonzero_zero (a b : Rectangle) (pa : Point)
    (ha : a.bottom_right = some pa) (hb : b.bottom_right = none) :
    a.intersection b = if a.contains b.top_left then b else Rectangle.zero := by
  unfold Rectangle.intersection
  rw [ha, hb]

theorem intersection_char (a b : Rectangle) (hva : a.valid) (hvb : b.valid)
    (hna : a.noSat) (hnb : b.noSat)
    (hwa : 0 < a.size.width) (hha : 0 < a.size.height)
    (hwb : 0 < b.size.width) (hhb : 0 < b.size.height)
    (hovx : max a.top_left.x b.top_left.x ≤
      min (a.top_left.x + a.size.width - 1) (b.top_left.x + b.size.width - 1))
    (hovy : max a.top_left.y b.top_left.y ≤
      min (a.top_left.y + a.size.height - 1) (b.top_left.y + b.size.height - 1)) :
    a.intersection b =
      ⟨⟨max a.top_left.x b.top_left.x, max a.top_left.y b.top_left.y⟩,
       ⟨(min (a.top_left.x + a.size.width - 1) (b.top_left.x + b.size.width - 1) -
           max a.top_left.x b.top_left.x + 1).toNat,
        (min (a.top_left.y + a.size.height - 1) (b.top_left.y + b.size.height - 1) -
           max a.top_left.y b.top_left.y + 1).toNat⟩⟩ := by
  rw [intersection_some_some a b _ _ (bottom_right_some a hva hna hwa hha)
    (bottom_right_some b hvb hnb hwb hhb)]
  rw [if_pos]
  · obtain ⟨⟨hax1, hax2, hay1, hay2⟩, hasw, hash⟩ := hva
    obtain ⟨⟨hbx1, hbx2, hby1, hby2⟩, hbsw, hbsh⟩ := hvb
    obtain ⟨hna1, hna2, hna3, hna4⟩ := hna
    obtain ⟨hnb1, hnb2, hnb3, hnb4⟩ := hnb
    simp only [i32Min, i32Max, u32Max] at hax1 hax2 hay1 hay2 hasw hash hbx1 hbx2 hby1 hby2 hbsw hbsh hna1 hna2 hna3 hna4 hnb1 hnb2 hnb3 hnb4
    unfold Rectangle.with_corners Point.component_max Point.component_min
      Size.from_bounding_box u32Max
    dsimp only
    rw [Rectangle.mk.injEq, Point.mk.injEq, Size.mk.injEq]
    refine ⟨⟨?_, ?_⟩, ?_, ?_⟩
    · omega
    · omega
    · rw [min_eq_left (by omega)]
      omega
    · rw [min_eq_left (by omega)]
      omega
  · rw [Bool.and_eq_true]
    exact ⟨(overlaps_char _ _ (by dsimp; omega) (by dsimp; omega)).mpr
        (by dsimp; omega),
      (overlaps_char _ _ (by dsimp; omega) (by dsimp; omega)).mpr (by dsimp; omega)⟩

theorem intersection_not_overlap (a b : Rectangle) (hva : a.valid) (hvb : b.valid)
    (hna : a.noSat) (hnb : b.noSat)
    (hwa : 0 < a.size.width) (hha : 0 < a.size.height)
    (hwb : 0 < b.size.width) (hhb : 0 < b.size.height)
    (hov : ¬ (max a.top_left.x b.top_left.x ≤
        min (a.top_left.x + a.size.width - 1) (b.top_left.x + b.size.width - 1) ∧
      max a.top_left.y b.top_left.y ≤
        min (a.top_left.y + a.size.height - 1) (b.top_left.y + b.size.height - 1))) :
    a.intersection b = Rectangle.zero := by
  rw [intersection_some_some a b _ _ (bottom_right_some a hva hna hwa hha)
    (bottom_right_some b hvb hnb hwb hhb)]
  rw [if_neg]
  intro hcond
  rw [Bool.and_eq_true] at hcond
  exact hov ⟨(overlaps_char _ _ (by dsimp; omega) (by dsimp; omega)).mp hcond.1,
    (overlaps_char _ _ (by dsimp; omega) (by dsimp; omega)).mp hcond.2⟩

/-- Claim C1, counterexample: for the zero-sized rectangle
`R = Rectangle::new(Point::new(1, 2), Size::new(0, 0))`, `R.intersection(&R)`
is `Rectangle::zero()`, which differs from `R`, so the claim fails for
zero-sized rectangles away from the origin. -/
theorem c1_counterexample :
    (Rectangle.new ⟨1, 2⟩ ⟨0, 0⟩).intersection (Rectangle.new ⟨1, 2⟩ ⟨0, 0⟩) ≠
      Rectangle.new ⟨1, 2⟩ ⟨0, 0⟩ := by decide

/-- Claim C2: the "cross" overlap case.
`A = Rectangle::new(Point::new(50, 0), Size::new(75, 200))` and
`B = Rectangle::new(Point::new(0, 75), Size::new(200, 50))` intersect in
`Rectangle::new(Point::new(50, 75), Size::new(75, 50))`, in both argument
orders. -/
theorem c2_cross_intersection :
    (Rectangle.new ⟨50, 0⟩ ⟨75, 200⟩).intersection (Rectangle.new ⟨0, 75⟩ ⟨200, 50⟩) =
      Rectangle.new ⟨50, 75⟩ ⟨75, 50⟩ ∧
    (Rectangle.new ⟨0, 75⟩ ⟨200, 50⟩).intersection (Rectangle.new ⟨50, 0⟩ ⟨75, 200⟩) =
      Rectangle.new ⟨50, 75⟩ ⟨75, 50⟩ := by decide

/-- Claim C3, counterexample: intersection is not commutative once the
bottom-right computation saturates. For
`A = Rectangle::new(Point::new(2147483647, 0), Size::new(5, 10))` and
`B = Rectangle::new(Point::new(0, 0), Size::new(2147483648, 10))`,
`A.intersection(&B)` is a 2×10 rectangle while `B.intersection(&A)` is
`Rectangle::zero()`. -/
theorem c3_counterexample :
    (Rectangle.new ⟨2147483647, 0⟩ ⟨5, 10⟩).intersection
        (Rectangle.new ⟨0, 0⟩ ⟨2147483648, 10⟩) ≠
      (Rectangle.new ⟨0, 0⟩ ⟨2147483648, 10⟩).intersection
        (Rectangle.new ⟨2147483647, 0⟩ ⟨5, 10⟩) := by decide

/-- Claim C4, counterexample: for the zero-sized rectangle
`R = Rectangle::new(Point::new(2, 2), Size::new(5, 0))` (zero along the
y-axis only), `R.envelope(&R)` has size `(5, 1)`, not size `(1, 1)` as the
claim states for zero-sized rectangles. -/
theorem c4_counterexample :
    (Rectangle.new ⟨2, 2⟩ ⟨5, 0⟩).is_zero_sized = true ∧
    (Rectangle.new ⟨2, 2⟩ ⟨5, 0⟩).envelope (Rectangle.new ⟨2, 2⟩ ⟨5, 0⟩) =
      Rectangle.new ⟨2, 2⟩ ⟨5, 1⟩ ∧
    (Rectangle.new ⟨2, 2⟩ ⟨5, 0⟩).envelope (Rectangle.new ⟨2, 2⟩ ⟨5, 0⟩) ≠
      Rectangle.new ⟨2, 2⟩ ⟨1, 1⟩ := by decide

/-- Claim C5, counterexample: `R = Rectangle::new(Point::new(0, 0),
Size::new(0, 5))` is zero-sized (width 0), yet `R.rows()` is the nonempty
range `0..5`; emptiness of `rows()` tracks only the height, so "empty iff
zero-sized" fails. -/
theorem c5_counterexample :
    (Rectangle.new ⟨0, 0⟩ ⟨0, 5⟩).is_zero_sized = true ∧
    (Rectangle.new ⟨0, 0⟩ ⟨0, 5⟩).rows.is_empty = false := by decide

/-- Claim C6: there exist a center point and a size with an even component
for which `with_center` followed by `center` does not return the original
center (witnessed at the saturating `i32` boundary; away from the boundary
the two methods share `center_offset`, so the round-trip is exact). -/
theorem c6_center_roundtrip_not_guaranteed :
    ∃ (c : Point) (s : Size), (2 ∣ s.width ∨ 2 ∣ s.height) ∧
      (Rectangle.with_center c s).center ≠ c :=
  ⟨⟨-2147483648, 0⟩, ⟨4, 1⟩, Or.inl ⟨2, rfl⟩, by decide⟩

/-- Claim C8: `Rectangle::offset` is not overflow-safe. For
`R = Rectangle::new(Point::new(0, 0), Size::new(10, 10))` the call
`R.offset(i32::MIN)` computes the shrink amount `(-offset) as u32 * 2`,
which wraps to `0`, so the rectangle is returned unchanged; under the
spec-mandated saturating arithmetic the size would clamp to `(0, 0)`,
giving `Rectangle::new(Point::new(4, 4), Size::new(0, 0))`. -/
theorem c8_offset_min_wraps :
    (Rectangle.new ⟨0, 0⟩ ⟨10, 10⟩).offset (-2147483648) =
      Rectangle.new ⟨0, 0⟩ ⟨10, 10⟩ ∧
    Rectangle.offsetSpec (Rectangle.new ⟨0, 0⟩ ⟨10, 10⟩) (-2147483648) =
      Rectangle.new ⟨4, 4⟩ ⟨0, 0⟩ := by decide

/-- Claim C9: the anchored-resize example.
`Rectangle::new(Point::new(20, 20), Size::new(10, 20))` resized to
`Size::new(20, 10)` about `AnchorPoint::Center` is
`Rectangle::new(Point::new(15, 25), Size::new(20, 10))`. -/
theorem c9_resized_center :
    (Rectangle.new ⟨20, 20⟩ ⟨10, 20⟩).resized ⟨20, 10⟩ .Center =
      Rectangle.new ⟨15, 25⟩ ⟨20, 10⟩ := by decide

/-- Claim C1 (amended): for every `i32`/`u32`-representable rectangle whose
derived coordinates do not saturate, `R.intersection(&R)` equals `R` when `R`
is non-zero-sized and equals `Rectangle::zero()` when `R` is zero-sized. -/
theorem c1_intersection_self_amended (r : Rectangle) (hv : r.valid) (hn : r.noSat) :
    r.intersection r = if r.is_zero_sized then Rectangle.zero else r := by
  by_cases hz : r.size.width = 0 ∨ r.size.height = 0
  · have hzt : r.is_zero_sized = true := by
      unfold Rectangle.is_zero_sized
      simp only [Bool.or_eq_true, decide_eq_true_eq]
      omega
    rw [intersection_none_none r r (bottom_right_none r hz) (bottom_right_none r hz),
      hzt, if_pos rfl]
  · push_neg at hz
    have hzf : r.is_zero_sized = false := by
      unfold Rectangle.is_zero_sized
      simp only [Bool.or_eq_false_iff, decide_eq_false_iff_not]
      omega
    rw [hzf, if_neg Bool.false_ne_true]
    rw [intersection_char r r hv hv hn hn (by omega) (by omega) (by omega) (by omega)
      (by omega) (by omega)]
    obtain ⟨⟨tlx, tly⟩, w, h⟩ := r
    dsimp only
    rw [Rectangle.mk.injEq, Point.mk.injEq, Size.mk.injEq]
    refine ⟨⟨?_, ?_⟩, ?_, ?_⟩ <;> omega

theorem c1_witness :
    (Rectangle.new ⟨0, 0⟩ ⟨3, 4⟩).intersection (Rectangle.new ⟨0, 0⟩ ⟨3, 4⟩) =
      if (Rectangle.new ⟨0, 0⟩ ⟨3, 4⟩).is_zero_sized then Rectangle.zero
      else Rectangle.new ⟨0, 0⟩ ⟨3, 4⟩ :=
  c1_intersection_self_amended (Rectangle.new ⟨0, 0⟩ ⟨3, 4⟩) (by decide) (by decide)

/-- Claim C3 (amended): intersection is commutative for every pair of
`i32`/`u32`-representable rectangles whose derived coordinates do not
saturate. -/
theorem c3_intersection_comm_amended (a b : Rectangle) (hva : a.valid) (hvb : b.valid)
    (hna : a.noSat) (hnb : b.noSat) :
    a.intersection b = b.intersection a := by
  by_cases hza : a.size.width = 0 ∨ a.size.height = 0
  · by_cases hzb : b.size.width = 0 ∨ b.size.height = 0
    · rw [intersection_none_none a b (bottom_right_none a hza) (bottom_right_none b hzb),
        intersection_none_none b a (bottom_right_none b hzb) (bottom_right_none a hza)]
    · push_neg at hzb
      rw [intersection_zero_nonzero a b _ (bottom_right_none a hza)
          (bottom_right_some b hvb hnb (by omega) (by omega)),
        intersection_nonzero_zero b a _ (bottom_right_some b hvb hnb (by omega) (by omega))
          (bottom_right_none a hza)]
  · push_neg at hza
    by_cases hzb : b.size.width = 0 ∨ b.size.height = 0
    · rw [intersection_nonzero_zero a b _ (bottom_right_some a hva hna (by omega) (by omega))
          (bottom_right_none b hzb),
        intersection_zero_nonzero b a _ (bottom_right_none b hzb)
          (bottom_right_some a hva hna (by omega) (by omega))]
    · push_neg at hzb
      by_cases hov : max a.top_left.x b.top_left.x ≤
          min (a.top_left.x + a.size.width - 1) (b.top_left.x + b.size.width - 1) ∧
        max a.top_left.y b.top_left.y ≤
          min (a.top_left.y + a.size.height - 1) (b.top_left.y + b.size.height - 1)
      · rw [intersection_char a b hva hvb hna hnb (by omega) (by omega) (by omega)
            (by omega) hov.1 hov.2,
          intersection_char b a hvb hva hnb hna (by omega) (by omega) (by omega)
            (by omega) (by omega) (by omega)]
        rw [Rectangle.mk.injEq, Point.mk.injEq, Size.mk.injEq]
        refine ⟨⟨?_, ?_⟩, ?_, ?_⟩ <;> omega
      · rw [intersection_not_overlap a b hva hvb hna hnb (by omega) (by omega)
            (by omega) (by omega) hov,
          intersection_not_overlap b a hvb hva hnb hna (by omega) (by omega)
            (by omega) (by omega) (by omega)]

theorem c3_witness :
    (Rectangle.new ⟨0, 0⟩ ⟨3, 4⟩).intersection (Rectangle.new ⟨2, 1⟩ ⟨5, 6⟩) =
      (Rectangle.new ⟨2, 1⟩ ⟨5, 6⟩).intersection (Rectangle.new ⟨0, 0⟩ ⟨3, 4⟩) :=
  c3_intersection_comm_amended (Rectangle.new ⟨0, 0⟩ ⟨3, 4⟩) (Rectangle.new ⟨2, 1⟩ ⟨5, 6⟩)
    (by decide) (by decide) (by decide) (by decide)

/-- Claim C4 (amended): for every `i32`/`u32`-representable rectangle whose
derived coordinates do not saturate, `R.envelope(&R)` is the rectangle at
`R`'s top-left corner with size `(max(width, 1), max(height, 1))`: each zero
size component is individually treated as `1`. In particular the result is
`R` for non-zero-sized `R`, and has size `(1, 1)` only when both components
are zero. -/
theorem c4_envelope_self_amended (r : Rectangle) (hv : r.valid) (hn : r.noSat) :
    r.envelope r = ⟨r.top_left, ⟨max r.size.width 1, max r.size.height 1⟩⟩ := by
  obtain ⟨⟨tlx, tly⟩, w, h⟩ := r
  obtain ⟨⟨hx1, hx2, hy1, hy2⟩, hsw, hsh⟩ := hv
  obtain ⟨h1, h2, h3, h4⟩ := hn
  simp only [i32Min, i32Max, u32Max] at hx1 hx2 hy1 hy2 hsw hsh h1 h2 h3 h4
  unfold Rectangle.envelope Rectangle.anchor_point AnchorPoint.x AnchorPoint.y
    Rectangle.anchor_x Rectangle.anchor_y Point.component_min Point.component_max
  dsimp only
  rw [satI32_eq w h1, satI32_eq h h2]
  rw [wrap32_eq _ (by omega) (by omega), wrap32_eq _ (by omega) (by omega)]
  unfold Rectangle.with_corners Size.from_bounding_box u32Max
  dsimp only
  rw [Rectangle.mk.injEq, Point.mk.injEq, Size.mk.injEq]
  refine ⟨⟨?_, ?_⟩, ?_, ?_⟩
  · omega
  · omega
  · rw [min_eq_left (by omega)]
    omega
  · rw [min_eq_left (by omega)]
    omega

theorem c4_witness :
    (Rectangle.new ⟨5, 6⟩ ⟨0, 3⟩).envelope (Rectangle.new ⟨5, 6⟩ ⟨0, 3⟩) =
      ⟨⟨5, 6⟩, ⟨max 0 1, max 3 1⟩⟩ :=
  c4_envelope_self_amended (Rectangle.new ⟨5, 6⟩ ⟨0, 3⟩) (by decide) (by decide)

/-- Claim C5 (amended): for every `i32`/`u32`-representable rectangle whose
derived coordinates do not saturate, `rows()` is the half-open range
`[top_left.y, top_left.y + height)` and `columns()` the symmetric range over
`x`; `rows()` is empty iff `height == 0` and `columns()` iff `width == 0`,
so the rectangle is zero-sized iff `rows()` or `columns()` is empty —
not iff both are. -/
theorem c5_rows_columns_amended (r : Rectangle) (hv : r.valid) (hn : r.noSat) :
    r.rows = ⟨r.top_left.y, r.top_left.y + r.size.height⟩ ∧
    r.columns = ⟨r.top_left.x, r.top_left.x + r.size.width⟩ ∧
    (r.is_zero_sized = true ↔
      (r.rows.is_empty = true ∨ r.columns.is_empty = true)) := by
  obtain ⟨⟨tlx, tly⟩, w, h⟩ := r
  obtain ⟨⟨hx1, hx2, hy1, hy2⟩, hsw, hsh⟩ := hv
  obtain ⟨h1, h2, h3, h4⟩ := hn
  simp only [i32Min, i32Max, u32Max] at hx1 hx2 hy1 hy2 hsw hsh h1 h2 h3 h4
  have hr : Rectangle.rows ⟨⟨tlx, tly⟩, ⟨w, h⟩⟩ = ⟨tly, tly + h⟩ := by
    unfold Rectangle.rows
    dsimp only
    rw [satI32_eq h h2, RangeExclusive.mk.injEq]
    refine ⟨rfl, ?_⟩
    unfold satAdd32 i32Min i32Max
    split_ifs <;> omega
  have hc : Rectangle.columns ⟨⟨tlx, tly⟩, ⟨w, h⟩⟩ = ⟨tlx, tlx + w⟩ := by
    unfold Rectangle.columns
    dsimp only
    rw [satI32_eq w h1, RangeExclusive.mk.injEq]
    refine ⟨rfl, ?_⟩
    unfold satAdd32 i32Min i32Max
    split_ifs <;> omega
  refine ⟨hr, hc, ?_⟩
  rw [hr, hc]
  unfold Rectangle.is_zero_sized RangeExclusive.is_empty
  dsimp only
  simp only [Bool.or_eq_true, decide_eq_true_eq, Bool.not_eq_true',
    decide_eq_false_iff_not]
  omega

theorem c5_witness :
    (Rectangle.new ⟨7, 8⟩ ⟨3, 0⟩).rows = ⟨8, 8⟩ ∧
    (Rectangle.new ⟨7, 8⟩ ⟨3, 0⟩).columns = ⟨7, 10⟩ ∧
    ((Rectangle.new ⟨7, 8⟩ ⟨3, 0⟩).is_zero_sized = true ↔
      ((Rectangle.new ⟨7, 8⟩ ⟨3, 0⟩).rows.is_empty = true ∨
       (Rectangle.new ⟨7, 8⟩ ⟨3, 0⟩).columns.is_empty = true)) :=
  c5_rows_columns_amended (Rectangle.new ⟨7, 8⟩ ⟨3, 0⟩) (by decide) (by decide)

/-- Claim C7: for well-formed inclusive integer ranges (`start <= end` on
each side), the three-way check of `overlaps` is true exactly when
`max(starts) <= min(ends)`, i.e. exactly when the two inclusive intervals
share at least one integer. -/
theorem c7_overlaps_iff (f s : RangeInclusive) (hf : f.lo ≤ f.hi) (hs : s.lo ≤ s.hi) :
    overlaps f s = true ↔ max f.lo s.lo ≤ min f.hi s.hi :=
  overlaps_char f s hf hs

theorem c7_witness :
    overlaps ⟨0, 5⟩ ⟨3, 9⟩ = true ↔ max (0 : Int) 3 ≤ min (5 : Int) 9 :=
  c7_overlaps_iff ⟨0, 5⟩ ⟨3, 9⟩ (by decide) (by decide)

/-- Claim C10 (amended): for `i32`/`u32`-representable rectangles whose
derived coordinates do not saturate, intersection is sound for containment:
any point contained in `A.intersection(&B)` is contained in both `A` and
`B`. -/
theorem c10_intersection_sound_amended (a b : Rectangle) (p : Point)
    (hva : a.valid) (hvb : b.valid) (hna : a.noSat) (hnb : b.noSat)
    (hp : (a.intersection b).contains p = true) :
    a.contains p = true ∧ b.contains p = true := by
  have hva2 := hva
  have hvb2 := hvb
  have hna2 := hna
  have hnb2 := hnb
  obtain ⟨⟨hax1, hax2, hay1, hay2⟩, hasw, hash⟩ := hva2
  obtain ⟨⟨hbx1, hbx2, hby1, hby2⟩, hbsw, hbsh⟩ := hvb2
  obtain ⟨han1, han2, han3, han4⟩ := hna2
  obtain ⟨hbn1, hbn2, hbn3, hbn4⟩ := hnb2
  simp only [i32Min, i32Max, u32Max] at hax1 hax2 hay1 hay2 hasw hash hbx1 hbx2 hby1 hby2 hbsw hbsh han1 han2 han3 han4 hbn1 hbn2 hbn3 hbn4
  by_cases hza : a.size.width = 0 ∨ a.size.height = 0
  · by_cases hzb : b.size.width = 0 ∨ b.size.height = 0
    · rw [intersection_none_none a b (bottom_right_none a hza) (bottom_right_none b hzb),
        contains_of_br_none _ p (bottom_right_none _ (Or.inl rfl))] at hp
      exact absurd hp Bool.false_ne_true
    · push_neg at hzb
      rw [intersection_zero_nonzero a b _ (bottom_right_none a hza)
          (bottom_right_some b hvb hnb (by omega) (by omega))] at hp
      split_ifs at hp
      · rw [contains_of_br_none a p (bottom_right_none a hza)] at hp
        exact absurd hp Bool.false_ne_true
      · rw [contains_of_br_none _ p (bottom_right_none _ (Or.inl rfl))] at hp
        exact absurd hp Bool.false_ne_true
  · push_neg at hza
    by_cases hzb : b.size.width = 0 ∨ b.size.height = 0
    · rw [intersection_nonzero_zero a b _ (bottom_right_some a hva hna (by omega) (by omega))
          (bottom_right_none b hzb)] at hp
      split_ifs at hp
      · rw [contains_of_br_none b p (bottom_right_none b hzb)] at hp
        exact absurd hp Bool.false_ne_true
      · rw [contains_of_br_none _ p (bottom_right_none _ (Or.inl rfl))] at hp
        exact absurd hp Bool.false_ne_true
    · push_neg at hzb
      by_cases hov : max a.top_left.x b.top_left.x ≤
          min (a.top_left.x + a.size.width - 1) (b.top_left.x + b.size.width - 1) ∧
        max a.top_left.y b.top_left.y ≤
          min (a.top_left.y + a.size.height - 1) (b.top_left.y + b.size.height - 1)
      · rw [intersection_char a b hva hvb hna hnb (by omega) (by omega) (by omega)
            (by omega) hov.1 hov.2] at hp
        have hrv : Rectangle.valid
            ⟨⟨max a.top_left.x b.top_left.x, max a.top_left.y b.top_left.y⟩,
             ⟨(min (a.top_left.x + a.size.width - 1) (b.top_left.x + b.size.width - 1) -
                 max a.top_left.x b.top_left.x + 1).toNat,
              (min (a.top_left.y + a.size.height - 1) (b.top_left.y + b.size.height - 1) -
                 max a.top_left.y b.top_left.y + 1).toNat⟩⟩ := by
          refine ⟨⟨?_, ?_, ?_, ?_⟩, ?_, ?_⟩ <;>
            (simp only [i32Min, i32Max, u32Max]; omega)
        have hrn : Rectangle.noSat
            ⟨⟨max a.top_left.x b.top_left.x, max a.top_left.y b.top_left.y⟩,
             ⟨(min (a.top_left.x + a.size.width - 1) (b.top_left.x + b.size.width - 1) -
                 max a.top_left.x b.top_left.x + 1).toNat,
              (min (a.top_left.y + a.size.height - 1) (b.top_left.y + b.size.height - 1) -
                 max a.top_left.y b.top_left.y + 1).toNat⟩⟩ := by
          refine ⟨?_, ?_, ?_, ?_⟩ <;>
            (simp only [i32Min, i32Max, u32Max]; omega)
        rw [contains_iff _ p hrv hrn] at hp
        dsimp only at hp
        rw [contains_iff a p hva hna, contains_iff b p hvb hnb]
        omega
      · rw [intersection_not_overlap a b hva hvb hna hnb (by omega) (by omega)
            (by omega) (by omega) hov,
          contains_of_br_none _ p (bottom_right_none _ (Or.inl rfl))] at hp
        exact absurd hp Bool.false_ne_true

theorem c10_witness :
    (Rectangle.new ⟨0, 0⟩ ⟨4, 4⟩).contains ⟨2, 2⟩ = true ∧
    (Rectangle.new ⟨2, 2⟩ ⟨4, 4⟩).contains ⟨2, 2⟩ = true :=
  c10_intersection_sound_amended (Rectangle.new ⟨0, 0⟩ ⟨4, 4⟩)
    (Rectangle.new ⟨2, 2⟩ ⟨4, 4⟩) ⟨2, 2⟩ (by decide) (by decide) (by decide)
    (by decide) (by decide)

/-- Claim C10, counterexample: with saturating bottom-right coordinates the
computed intersection can stick out of an input rectangle. With
`A = Rectangle::new(Point::new(2147483647, 0), Size::new(5, 10))` and
`B = Rectangle::new(Point::new(0, 0), Size::new(2147483648, 10))`, the point
`(2147483646, 0)` is contained in `A.intersection(&B)` but not in `A`. -/
theorem c10_counterexample :
    ((Rectangle.new ⟨2147483647, 0⟩ ⟨5, 10⟩).intersection
        (Rectangle.new ⟨0, 0⟩ ⟨2147483648, 10⟩)).contains ⟨2147483646, 0⟩ = true ∧
    (Rectangle.new ⟨2147483647, 0⟩ ⟨5, 10⟩).contains ⟨2147483646, 0⟩ = false := by
  decide

end EmbeddedGraphics
